import Mathlib

/-!
Shallow embedding of the Smart Trippy backend (`src/main.py`).

Calendar dates are modelled as `Int` day ordinals, so Python's
`date + timedelta(days = k)` becomes `+ k` and `(b - a).days` becomes `b - a`.
`date.today()` is an explicit `today : Int` input of the generator.
Prices (Python floats holding small decimals) are modelled as `ℚ`.
-/

/-- The `type` field of an itinerary item (`Literal` in the source). -/
inductive ItemType where
  | hotel
  | activity
  | restaurant
  | transport
  | tip
deriving DecidableEq, Repr

/-- `ItineraryItem` pydantic model; field defaults follow the source
(`currency` defaults to `"USD"`, `available` to `true`). -/
structure ItineraryItem where
  day : Int
  type : ItemType
  title : String
  description : Option String := none
  location : Option String := none
  start_time : Option String := none
  end_time : Option String := none
  price : Option ℚ := none
  currency : Option String := some "USD"
  link : Option String := none
  available : Bool := true
  vendor : Option String := none
deriving DecidableEq, Repr

/-- `PlanRequest` pydantic model (`travelers` defaults to 1, with no
positivity constraint in the source). -/
structure PlanRequest where
  destination : String
  start_date : Option Int := none
  end_date : Option Int := none
  travelers : Int := 1
  preferences : Option String := none
  budget : Option String := none
  style : Option String := none
deriving DecidableEq, Repr

/-- `PlanResponse` pydantic model; `sources` entries are (name, url) pairs. -/
structure PlanResponse where
  destination : String
  start_date : Int
  end_date : Int
  nights : Int
  travelers : Int
  summary : String
  items : List ItineraryItem
  sources : List (String × String)
deriving DecidableEq, Repr

/-- The fixed `VENDORS` table of the source. -/
def VENDORS : List (String × String) :=
  [("Booking.com", "https://www.booking.com"),
   ("Airbnb", "https://www.airbnb.com"),
   ("Hotels.com", "https://www.hotels.com"),
   ("Expedia", "https://www.expedia.com"),
   ("Viator", "https://www.viator.com"),
   ("GetYourGuide", "https://www.getyourguide.com")]

/-- Python `q.replace(' ', '+')`: since the pattern is the single space
character, this is exactly a character map sending each space to a plus
sign and leaving every other character unchanged (no other escaping). -/
def pyReplaceSpacePlus (q : String) : String :=
  ⟨q.data.map fun c => if c = ' ' then '+' else c⟩

/-- `_mock_link`: Python replaces every space of `q` by a plus sign and
escapes nothing else. -/
def _mock_link (vendor_base : String) (q : String) : String :=
  vendor_base ++ "/search?q=" ++ pyReplaceSpacePlus q

/-- Python truthiness of an optional string (`None` and `""` are falsy),
as used by the summary construction. -/
def optTruthy : Option String → Bool
  | none => false
  | some s => !s.isEmpty

/-- Resolved start date: `payload.start_date or (today + timedelta(days=14))`
(a `date` is always truthy, so `or` is a None-default). -/
def startOf (today : Int) (payload : PlanRequest) : Int :=
  payload.start_date.getD (today + 14)

/-- End date before normalization: `payload.end_date or (start + timedelta(days=4))`. -/
def rawEnd (today : Int) (payload : PlanRequest) : Int :=
  payload.end_date.getD (startOf today payload + 4)

/-- `nights = (end - start).days` before normalization. -/
def rawNights (today : Int) (payload : PlanRequest) : Int :=
  rawEnd today payload - startOf today payload

/-- End date after the `if nights <= 0` normalization. -/
def endOf (today : Int) (payload : PlanRequest) : Int :=
  if rawNights today payload ≤ 0 then startOf today payload + 4
  else rawEnd today payload

/-- Nights after normalization (recomputed from the forced end date when
the raw count was not positive). -/
def nightsOf (today : Int) (payload : PlanRequest) : Int :=
  if rawNights today payload ≤ 0 then endOf today payload - startOf today payload
  else rawNights today payload

/-- Body of the hotel loop (`for i in range(2)`). -/
def hotelItem (payload : PlanRequest) (nights : Int) (i : Nat) : ItineraryItem :=
  let v := VENDORS.getD (i % VENDORS.length) ("", "")
  let hotel_name := payload.destination ++ " Boutique Hotel " ++ toString (i + 1)
  { day := 1
    type := .hotel
    title := hotel_name
    description := some ("Centrally located stay for " ++ toString nights ++ " nights.")
    location := some payload.destination
    price := some (145 + (i : ℚ) * 35)
    currency := some "USD"
    link := some (_mock_link v.2 hotel_name)
    available := true
    vendor := some v.1 }

/-- The activity item generated for day `d`. -/
def activityItem (payload : PlanRequest) (d : Nat) : ItineraryItem :=
  let v := VENDORS.getD ((d + 2) % VENDORS.length) ("", "")
  let act_title := "Guided walking tour - Day " ++ toString d
  { day := (d : Int)
    type := .activity
    title := act_title
    description := some "Highly rated experience with instant confirmation."
    location := some payload.destination
    price := some 39
    currency := some "USD"
    link := some (_mock_link v.2 (payload.destination ++ " walking tour"))
    available := true
    vendor := some v.1
    start_time := some "10:00"
    end_time := some "12:00" }

/-- The restaurant item generated for day `d` (`price=None`; no `currency`
argument is passed, so the model default `"USD"` applies). -/
def restaurantItem (payload : PlanRequest) (d : Nat) : ItineraryItem :=
  let rest_title := "Cozy local restaurant - Day " ++ toString d
  { day := (d : Int)
    type := .restaurant
    title := rest_title
    description := some "Loved by locals. Reserve a table online."
    location := some payload.destination
    price := none
    link := some (_mock_link "https://www.opentable.com" (payload.destination ++ " dinner"))
    available := true
    vendor := some "OpenTable"
    start_time := some "19:30" }

/-- One iteration of the per-day loop appends the activity then the restaurant. -/
def dayItems (payload : PlanRequest) (d : Nat) : List ItineraryItem :=
  [activityItem payload d, restaurantItem payload d]

/-- The full `items` list: two hotels, then for each day `d` in `1..nights`
the activity/restaurant pair. -/
def itemsOf (payload : PlanRequest) (nights : Int) : List ItineraryItem :=
  (List.range 2).map (hotelItem payload nights)
    ++ (List.range nights.toNat).flatMap (fun k => dayItems payload (k + 1))

/-- The summary string, with Python truthiness on `style` and `budget`. -/
def summaryOf (payload : PlanRequest) (nights : Int) : String :=
  "Personalized " ++ toString nights ++ "-night plan for " ++ payload.destination
    ++ ". " ++ "Optimized for " ++ toString payload.travelers ++ " traveler(s)"
    ++ (if optTruthy payload.style then " with a " ++ payload.style.getD "" ++ " vibe" else "")
    ++ (if optTruthy payload.budget then " and " ++ payload.budget.getD "" ++ " budget." else ".")

/-- `_generate_mock_plan`, with `today` (Python `date.today()`) as an
explicit input. -/
def _generate_mock_plan (today : Int) (payload : PlanRequest) : PlanResponse :=
  { destination := payload.destination
    start_date := startOf today payload
    end_date := endOf today payload
    nights := nightsOf today payload
    travelers := payload.travelers
    summary := summaryOf payload (nightsOf today payload)
    items := itemsOf payload (nightsOf today payload)
    sources := [("Tripadvisor", "https://www.tripadvisor.com"),
                ("Viator", "https://www.viator.com")] }

/-- `POST /api/plan` handler: a 400 client error when `not payload.destination`
(the empty string is the only falsy string), otherwise the generator result
returned verbatim. -/
def plan_trip (today : Int) (payload : PlanRequest) : Except Nat PlanResponse :=
  if payload.destination.isEmpty then Except.error 400
  else Except.ok (_generate_mock_plan today payload)


/-- Concrete request: both dates supplied, end not after start. -/
def reqDatesBackwards : PlanRequest :=
  { destination := "X", start_date := some 10, end_date := some 8 }

/-- Concrete request: both dates supplied, end strictly after start. -/
def reqParis : PlanRequest :=
  { destination := "Paris", start_date := some 100, end_date := some 103 }

/-- Concrete request with no dates. -/
def reqRome : PlanRequest := { destination := "Rome" }

/-- Concrete request with destination `"X"` and no dates. -/
def reqX : PlanRequest := { destination := "X" }

/-- Concrete request whose destination is a single space. -/
def reqSpace : PlanRequest := { destination := " " }

/-- Concrete request with a zero traveler count. -/
def reqZeroTravelers : PlanRequest := { destination := "X", travelers := 0 }

/-! ## Helper lemmas -/

/-- The normalized nights count is 4 when the raw count is not positive,
and the raw count otherwise. -/
lemma nightsOf_eq (today : Int) (p : PlanRequest) :
    nightsOf today p = if rawNights today p ≤ 0 then 4 else rawNights today p := by
  unfold nightsOf endOf
  by_cases h : rawNights today p ≤ 0
  · simp only [if_pos h]
    omega
  · simp only [if_neg h]

/-- The normalized nights count is always at least 1. -/
lemma nightsOf_pos (today : Int) (p : PlanRequest) : 1 ≤ nightsOf today p := by
  rw [nightsOf_eq]
  split <;> omega

/-- Each per-day block contributes exactly two items. -/
lemma dayBlock_length (p : PlanRequest) :
    ∀ m : Nat, ((List.range m).flatMap (fun k => dayItems p (k + 1))).length = 2 * m := by
  intro m
  induction m with
  | zero => rfl
  | succ m ih =>
      rw [List.range_succ, List.flatMap_append, List.length_append, ih]
      simp [dayItems]
      omega

/-- The generated item list has `2 + 2 * nights` elements. -/
lemma itemsOf_length (p : PlanRequest) (n : Int) :
    (itemsOf p n).length = 2 + 2 * n.toNat := by
  unfold itemsOf
  rw [List.length_append, List.length_map, List.length_range, dayBlock_length]

/-- A `flatMap` over `range n` of blocks that are singletons exactly at day
`d` collapses to the single block of day `d` when `1 ≤ d ≤ n`. -/
lemma range_flatMap_single {α : Type} (g : Nat → α) (n d : Nat) :
    ((List.range n).flatMap (fun k => if k + 1 = d then [g (k + 1)] else []))
      = if 1 ≤ d ∧ d ≤ n then [g d] else [] := by
  induction n with
  | zero =>
      simp only [List.range_zero, List.flatMap_nil]
      split
      · exact absurd (by assumption) (by omega)
      · rfl
  | succ n ih =>
      rw [List.range_succ, List.flatMap_append, ih]
      simp only [List.flatMap_cons, List.flatMap_nil, List.append_nil]
      by_cases hd : n + 1 = d
      · subst hd
        rw [if_neg (by omega), if_pos rfl, if_pos (by omega)]
        rfl
      · rw [if_neg hd]
        by_cases hle : 1 ≤ d ∧ d ≤ n
        · rw [if_pos hle, if_pos (by omega), List.append_nil]
        · rw [if_neg hle, if_neg (by omega), List.append_nil]

/-! ## Claims -/

/-- C1: date resolution of the generator. A missing start date defaults to
today + 14 days; a missing end date defaults to start + 4 days (yielding 4
nights); an end date not strictly after the start date is discarded and
forced to start + 4 days, normalizing nights to exactly 4. -/
theorem generator_date_resolution (today : Int) (p : PlanRequest) :
    ((p.start_date = none → (_generate_mock_plan today p).start_date = today + 14) ∧
     (∀ s, p.start_date = some s → (_generate_mock_plan today p).start_date = s)) ∧
    (p.end_date = none →
      (_generate_mock_plan today p).end_date = (_generate_mock_plan today p).start_date + 4 ∧
      (_generate_mock_plan today p).nights = 4) ∧
    (∀ e, p.end_date = some e → e ≤ (_generate_mock_plan today p).start_date →
      (_generate_mock_plan today p).end_date = (_generate_mock_plan today p).start_date + 4 ∧
      (_generate_mock_plan today p).nights = 4) := by
  refine ⟨⟨?_, ?_⟩, ?_, ?_⟩
  · intro h
    show startOf today p = today + 14
    simp [startOf, h]
  · intro s h
    show startOf today p = s
    simp [startOf, h]
  · intro h
    have he : rawEnd today p = startOf today p + 4 := by simp [rawEnd, h]
    have hr : rawNights today p = 4 := by unfold rawNights; omega
    constructor
    · show endOf today p = startOf today p + 4
      unfold endOf
      rw [if_neg (by omega)]
      exact he
    · show nightsOf today p = 4
      rw [nightsOf_eq, if_neg (by omega)]
      exact hr
  · intro e h hle
    have hle' : e ≤ startOf today p := hle
    have he : rawEnd today p = e := by simp [rawEnd, h]
    have hr : rawNights today p ≤ 0 := by unfold rawNights; omega
    constructor
    · show endOf today p = startOf today p + 4
      unfold endOf
      rw [if_pos hr]
    · show nightsOf today p = 4
      rw [nightsOf_eq, if_pos hr]

/-- Witness for C1: start 10, end 8 (not after the start) is normalized to
end = 14 and nights = 4. -/
theorem generator_date_resolution_witness :
    (_generate_mock_plan 0 reqDatesBackwards).end_date = 14 ∧
    (_generate_mock_plan 0 reqDatesBackwards).nights = 4 := by
  have h := (generator_date_resolution 0 reqDatesBackwards).2.2 8 rfl (by decide)
  have hs : (_generate_mock_plan 0 reqDatesBackwards).start_date = 10 := rfl
  exact ⟨by rw [h.1, hs]; decide, h.2⟩

/-- C2: when both dates are supplied and the end is strictly after the start,
nights equals the exact whole-day difference and the item list has exactly
`2 + 2 * nights` elements. -/
theorem generator_nights_and_item_count (today : Int) (p : PlanRequest) (s e : Int)
    (hs : p.start_date = some s) (he : p.end_date = some e) (hlt : s < e) :
    (_generate_mock_plan today p).nights = e - s ∧
    ((_generate_mock_plan today p).items.length : Int) =
      2 + 2 * (_generate_mock_plan today p).nights := by
  have hstart : startOf today p = s := by simp [startOf, hs]
  have hraw : rawNights today p = e - s := by simp [rawNights, rawEnd, he, hstart]
  have hn : (_generate_mock_plan today p).nights = e - s := by
    show nightsOf today p = e - s
    rw [nightsOf_eq, if_neg (by omega)]
    exact hraw
  refine ⟨hn, ?_⟩
  have hl : (_generate_mock_plan today p).items.length =
      2 + 2 * (nightsOf today p).toNat := itemsOf_length p (nightsOf today p)
  have hn' : nightsOf today p = e - s := hn
  show ((_generate_mock_plan today p).items.length : Int) = 2 + 2 * nightsOf today p
  rw [hl, hn']
  have hnn : (0:Int) ≤ e - s := by omega
  push_cast
  omega

/-- Witness for C2: start 100, end 103 yields 3 nights and 8 items. -/
theorem generator_nights_and_item_count_witness :
    (_generate_mock_plan 0 reqParis).nights = 3 ∧
    ((_generate_mock_plan 0 reqParis).items.length : Int) = 8 := by
  have h := generator_nights_and_item_count 0 reqParis 100 103 rfl rfl (by decide)
  exact ⟨h.1, by rw [h.2, h.1]; decide⟩

/-- C9: the generator is a deterministic pure function of the current date
and the request: equal inputs produce identical responses. -/
theorem generator_deterministic (today : Int) (p q : PlanRequest) (h : p = q) :
    _generate_mock_plan today p = _generate_mock_plan today q := by
  rw [h]

/-- Witness for C9 at a concrete request. -/
theorem generator_deterministic_witness :
    _generate_mock_plan 0 reqRome = _generate_mock_plan 0 reqRome :=
  generator_deterministic 0 reqRome reqRome rfl

/-- Per-day blocks contain no hotel item. -/
lemma dayItems_filter_hotel (p : PlanRequest) (m : Nat) :
    (dayItems p m).filter (fun it => decide (it.type = ItemType.hotel)) = [] := by
  simp [dayItems, activityItem, restaurantItem]

/-- The first hotel item, written out field by field. -/
lemma hotelItem_zero (p : PlanRequest) (n : Int) :
    hotelItem p n 0 =
      { day := 1
        type := .hotel
        title := p.destination ++ " Boutique Hotel 1"
        description := some ("Centrally located stay for " ++ toString n ++ " nights.")
        location := some p.destination
        price := some 145
        currency := some "USD"
        link := some ((VENDORS.getD 0 ("", "")).2 ++ "/search?q=" ++
          pyReplaceSpacePlus (p.destination ++ " Boutique Hotel 1"))
        available := true
        vendor := some (VENDORS.getD 0 ("", "")).1 } := by
  unfold hotelItem _mock_link
  simp only [String.append_assoc]
  congr 1 <;> first | rfl | (simp only [Option.some.injEq]; norm_num)

/-- The second hotel item, written out field by field. -/
lemma hotelItem_one (p : PlanRequest) (n : Int) :
    hotelItem p n 1 =
      { day := 1
        type := .hotel
        title := p.destination ++ " Boutique Hotel 2"
        description := some ("Centrally located stay for " ++ toString n ++ " nights.")
        location := some p.destination
        price := some 180
        currency := some "USD"
        link := some ((VENDORS.getD 1 ("", "")).2 ++ "/search?q=" ++
          pyReplaceSpacePlus (p.destination ++ " Boutique Hotel 2"))
        available := true
        vendor := some (VENDORS.getD 1 ("", "")).1 } := by
  unfold hotelItem _mock_link
  simp only [String.append_assoc]
  congr 1 <;> first | rfl | (simp only [Option.some.injEq]; norm_num)

/-- The activity item of day `d`, written out field by field. -/
lemma activityItem_eq (p : PlanRequest) (d : Nat) :
    activityItem p d =
      { day := (d : Int)
        type := .activity
        title := "Guided walking tour - Day " ++ toString d
        description := some "Highly rated experience with instant confirmation."
        location := some p.destination
        start_time := some "10:00"
        end_time := some "12:00"
        price := some 39
        currency := some "USD"
        link := some ((VENDORS.getD ((d + 2) % VENDORS.length) ("", "")).2 ++ "/search?q=" ++
          pyReplaceSpacePlus (p.destination ++ " walking tour"))
        available := true
        vendor := some (VENDORS.getD ((d + 2) % VENDORS.length) ("", "")).1 } := by
  unfold activityItem _mock_link
  simp only [String.append_assoc]

/-- The restaurant item of day `d`, written out field by field
(its `currency` is the model default `"USD"`). -/
lemma restaurantItem_eq (p : PlanRequest) (d : Nat) :
    restaurantItem p d =
      { day := (d : Int)
        type := .restaurant
        title := "Cozy local restaurant - Day " ++ toString d
        description := some "Loved by locals. Reserve a table online."
        location := some p.destination
        start_time := some "19:30"
        price := none
        currency := some "USD"
        link := some ("https://www.opentable.com" ++ "/search?q=" ++
          pyReplaceSpacePlus (p.destination ++ " dinner"))
        available := true
        vendor := some "OpenTable" } := by
  unfold restaurantItem _mock_link
  simp only [String.append_assoc]

/-- Filtering a per-day block for the activity of day `d` leaves it exactly
when the block is day `d`. -/
lemma dayItems_filter_act (p : PlanRequest) (d m : Nat) :
    (dayItems p m).filter (fun it => decide (it.day = (d : Int) ∧ it.type = ItemType.activity))
      = if m = d then [activityItem p m] else [] := by
  by_cases h : m = d
  · subst h
    simp [dayItems, activityItem, restaurantItem]
  · simp [dayItems, activityItem, restaurantItem, h, Nat.cast_inj]

/-- Filtering a per-day block for the restaurant of day `d` leaves it exactly
when the block is day `d`. -/
lemma dayItems_filter_rest (p : PlanRequest) (d m : Nat) :
    (dayItems p m).filter (fun it => decide (it.day = (d : Int) ∧ it.type = ItemType.restaurant))
      = if m = d then [restaurantItem p m] else [] := by
  by_cases h : m = d
  · subst h
    simp [dayItems, activityItem, restaurantItem]
  · simp [dayItems, activityItem, restaurantItem, h, Nat.cast_inj]

/-- C4: every plan has exactly 2 hotel items, both on day 1, titled
`<destination> Boutique Hotel n` for n = 1, 2, priced 145 and 180 USD,
with vendors taken from the vendor table at indices 0 and 1, and links
built from the vendor base by replacing spaces with plus signs only. -/
theorem generator_hotel_items (today : Int) (p : PlanRequest) :
    (_generate_mock_plan today p).items.filter (fun it => decide (it.type = ItemType.hotel)) =
      [{ day := 1
         type := .hotel
         title := p.destination ++ " Boutique Hotel 1"
         description := some ("Centrally located stay for " ++
           toString (_generate_mock_plan today p).nights ++ " nights.")
         location := some p.destination
         price := some 145
         currency := some "USD"
         link := some ((VENDORS.getD 0 ("", "")).2 ++ "/search?q=" ++
           pyReplaceSpacePlus (p.destination ++ " Boutique Hotel 1"))
         available := true
         vendor := some (VENDORS.getD 0 ("", "")).1 },
       { day := 1
         type := .hotel
         title := p.destination ++ " Boutique Hotel 2"
         description := some ("Centrally located stay for " ++
           toString (_generate_mock_plan today p).nights ++ " nights.")
         location := some p.destination
         price := some 180
         currency := some "USD"
         link := some ((VENDORS.getD 1 ("", "")).2 ++ "/search?q=" ++
           pyReplaceSpacePlus (p.destination ++ " Boutique Hotel 2"))
         available := true
         vendor := some (VENDORS.getD 1 ("", "")).1 }] := by
  simp only [show (_generate_mock_plan today p).nights = nightsOf today p from rfl]
  show (itemsOf p (nightsOf today p)).filter _ = _
  unfold itemsOf
  rw [List.filter_append, List.filter_flatMap]
  simp only [dayItems_filter_hotel]
  have hr : List.range 2 = [0, 1] := rfl
  rw [hr]
  simp only [List.map_cons, List.map_nil, hotelItem_zero, hotelItem_one]
  simp [List.filter]

/-- C3: for every day `d` in `[1, nights]`, the plan contains exactly one
activity item of day `d` (the guided walking tour, 39 USD, 10:00–12:00,
vendor at table index `(d+2) mod N`) and exactly one restaurant item of
day `d` (no price, vendor OpenTable with its fixed base URL, 19:30). -/
theorem generator_daily_items (today : Int) (p : PlanRequest) (d : Nat)
    (h1 : 1 ≤ d) (h2 : (d : Int) ≤ (_generate_mock_plan today p).nights) :
    (_generate_mock_plan today p).items.filter
        (fun it => decide (it.day = (d : Int) ∧ it.type = ItemType.activity)) =
      [{ day := (d : Int)
         type := .activity
         title := "Guided walking tour - Day " ++ toString d
         description := some "Highly rated experience with instant confirmation."
         location := some p.destination
         start_time := some "10:00"
         end_time := some "12:00"
         price := some 39
         currency := some "USD"
         link := some ((VENDORS.getD ((d + 2) % VENDORS.length) ("", "")).2 ++ "/search?q=" ++
           pyReplaceSpacePlus (p.destination ++ " walking tour"))
         available := true
         vendor := some (VENDORS.getD ((d + 2) % VENDORS.length) ("", "")).1 }] ∧
    (_generate_mock_plan today p).items.filter
        (fun it => decide (it.day = (d : Int) ∧ it.type = ItemType.restaurant)) =
      [{ day := (d : Int)
         type := .restaurant
         title := "Cozy local restaurant - Day " ++ toString d
         description := some "Loved by locals. Reserve a table online."
         location := some p.destination
         start_time := some "19:30"
         price := none
         currency := some "USD"
         link := some ("https://www.opentable.com" ++ "/search?q=" ++
           pyReplaceSpacePlus (p.destination ++ " dinner"))
         available := true
         vendor := some "OpenTable" }] := by
  have h2' : (d : Int) ≤ nightsOf today p := h2
  have hnn : 1 ≤ nightsOf today p := nightsOf_pos today p
  have hd : 1 ≤ d ∧ d ≤ (nightsOf today p).toNat := by omega
  constructor
  · show (itemsOf p (nightsOf today p)).filter _ = _
    unfold itemsOf
    rw [List.filter_append, List.filter_flatMap]
    have hh : ((List.range 2).map (hotelItem p (nightsOf today p))).filter
        (fun it => decide (it.day = (d : Int) ∧ it.type = ItemType.activity)) = [] := by
      simp [hotelItem]
    rw [hh, List.nil_append]
    simp only [dayItems_filter_act]
    rw [range_flatMap_single (activityItem p) ((nightsOf today p).toNat) d, if_pos hd,
      activityItem_eq]
  · show (itemsOf p (nightsOf today p)).filter _ = _
    unfold itemsOf
    rw [List.filter_append, List.filter_flatMap]
    have hh : ((List.range 2).map (hotelItem p (nightsOf today p))).filter
        (fun it => decide (it.day = (d : Int) ∧ it.type = ItemType.restaurant)) = [] := by
      simp [hotelItem]
    rw [hh, List.nil_append]
    simp only [dayItems_filter_rest]
    rw [range_flatMap_single (restaurantItem p) ((nightsOf today p).toNat) d, if_pos hd,
      restaurantItem_eq]

/-- Witness for C3: day 1 of the Paris plan has exactly one activity item. -/
theorem generator_daily_items_witness :
    ((_generate_mock_plan 0 reqParis).items.filter
        (fun it => decide (it.day = ((1 : Nat) : Int) ∧ it.type = ItemType.activity))).length = 1 := by
  have h := generator_daily_items 0 reqParis 1 (by decide) (by decide)
  rw [h.1]
  rfl

/-- C6: in every generated plan, nights is at least 1 and every item's day
index lies within `[1, nights]`. -/
theorem generator_day_bounds (today : Int) (p : PlanRequest) :
    1 ≤ (_generate_mock_plan today p).nights ∧
    ∀ it ∈ (_generate_mock_plan today p).items,
      1 ≤ it.day ∧ it.day ≤ (_generate_mock_plan today p).nights := by
  refine ⟨nightsOf_pos today p, ?_⟩
  intro it hit
  have hn : 1 ≤ nightsOf today p := nightsOf_pos today p
  have hit' : it ∈ itemsOf p (nightsOf today p) := hit
  unfold itemsOf at hit'
  rcases List.mem_append.1 hit' with hmem | hmem
  · rcases List.mem_map.1 hmem with ⟨i, hi, rfl⟩
    exact ⟨le_refl 1, hn⟩
  · rcases List.mem_flatMap.1 hmem with ⟨k, hk, hit2⟩
    have hk' : k < (nightsOf today p).toNat := List.mem_range.1 hk
    simp only [dayItems, List.mem_cons, List.not_mem_nil, or_false] at hit2
    have hday : it.day = ((k + 1 : Nat) : Int) := by
      rcases hit2 with h | h
      · rw [h]; rfl
      · rw [h]; rfl
    rw [hday]
    constructor
    · omega
    · show ((k + 1 : Nat) : Int) ≤ nightsOf today p
      omega

/-- Witness for C6 at a concrete item of a concrete plan. -/
theorem generator_day_bounds_witness :
    1 ≤ (restaurantItem reqX 1).day ∧
    (restaurantItem reqX 1).day ≤ (_generate_mock_plan 0 reqX).nights :=
  (generator_day_bounds 0 reqX).2 (restaurantItem reqX 1) (by decide)

/-- C5 counterexample: in the plan for destination "X" the restaurant items
do carry a currency, the model default "USD", so the claim that they have
no currency set is false. -/
theorem restaurant_currency_counterexample :
    ¬ (∀ it ∈ (_generate_mock_plan 0 reqX).items,
        it.type = ItemType.restaurant → it.currency = none) := by
  intro h
  have hmem : restaurantItem reqX 1 ∈ (_generate_mock_plan 0 reqX).items := by decide
  have := h (restaurantItem reqX 1) hmem rfl
  cases this

/-- C5 amended: every item's currency is "USD" (restaurant items included,
via the model default); restaurant items carry no price; every
non-restaurant item carries a strictly positive price. -/
theorem generator_currency_and_prices (today : Int) (p : PlanRequest) :
    ∀ it ∈ (_generate_mock_plan today p).items,
      it.currency = some "USD" ∧
      (it.type = ItemType.restaurant → it.price = none) ∧
      (it.type ≠ ItemType.restaurant → ∃ q, it.price = some q ∧ 0 < q) := by
  intro it hit
  have hit' : it ∈ itemsOf p (nightsOf today p) := hit
  unfold itemsOf at hit'
  rcases List.mem_append.1 hit' with hmem | hmem
  · rcases List.mem_map.1 hmem with ⟨i, hi, rfl⟩
    refine ⟨rfl, ?_, ?_⟩
    · intro htype
      exact absurd htype (by simp [hotelItem])
    · intro hne
      exact ⟨145 + (i : ℚ) * 35, rfl, by positivity⟩
  · rcases List.mem_flatMap.1 hmem with ⟨k, hk, hit2⟩
    simp only [dayItems, List.mem_cons, List.not_mem_nil, or_false] at hit2
    rcases hit2 with h | h
    · rw [h]
      refine ⟨rfl, ?_, ?_⟩
      · intro htype
        exact absurd htype (by simp [activityItem])
      · intro hne
        exact ⟨39, rfl, by norm_num⟩
    · rw [h]
      exact ⟨rfl, fun _ => rfl, fun hne => absurd rfl hne⟩

/-- Witness for C5 (amended) at the day-1 restaurant of a concrete plan. -/
theorem generator_currency_and_prices_witness :
    (restaurantItem reqX 1).currency = some "USD" ∧ (restaurantItem reqX 1).price = none := by
  have h := generator_currency_and_prices 0 reqX (restaurantItem reqX 1) (by decide)
  exact ⟨h.1, h.2.1 rfl⟩

/-- C7: the plan endpoint errors with 400 exactly when the destination is
the empty string, and otherwise returns the generator result verbatim. -/
theorem plan_endpoint_validation (today : Int) (p : PlanRequest) :
    (plan_trip today p = Except.error 400 ↔ p.destination = "") ∧
    (p.destination ≠ "" → plan_trip today p = Except.ok (_generate_mock_plan today p)) := by
  unfold plan_trip
  by_cases h : p.destination.isEmpty
  · have h' : p.destination = "" := (String.isEmpty_iff _).1 h
    rw [if_pos h]
    exact ⟨⟨fun _ => h', fun _ => rfl⟩, fun hne => absurd h' hne⟩
  · have h' : p.destination ≠ "" := fun he => h ((String.isEmpty_iff _).2 he)
    rw [if_neg h]
    exact ⟨⟨fun hc => absurd hc (by simp), fun he => absurd he h'⟩, fun _ => rfl⟩

/-- Witness for C7: a nonempty destination is accepted and returns the
generated plan unchanged. -/
theorem plan_endpoint_validation_witness :
    plan_trip 0 reqX = Except.ok (_generate_mock_plan 0 reqX) :=
  (plan_endpoint_validation 0 reqX).2 (by decide)

/-- C8 counterexample: a request with a zero traveler count is accepted by
the endpoint and echoed into the response, so travelers is not restricted
to positive integers. -/
theorem travelers_positive_counterexample :
    plan_trip 0 reqZeroTravelers = Except.ok (_generate_mock_plan 0 reqZeroTravelers) ∧
    (_generate_mock_plan 0 reqZeroTravelers).travelers = 0 :=
  ⟨rfl, rfl⟩

/-- C8 amended: the traveler count defaults to 1 when absent and the
response echoes the request's traveler count for every accepted request;
positivity is not enforced. -/
theorem travelers_default_and_echo (today : Int) (p : PlanRequest) (r : PlanResponse)
    (dst : String) :
    (plan_trip today p = Except.ok r → r.travelers = p.travelers) ∧
    ({ destination := dst } : PlanRequest).travelers = 1 := by
  refine ⟨?_, rfl⟩
  intro h
  unfold plan_trip at h
  split at h
  · cases h
  · cases h
    rfl

/-- Witness for C8 (amended): the Rome plan echoes the default count 1. -/
theorem travelers_default_and_echo_witness :
    (_generate_mock_plan 0 reqRome).travelers = 1 := by
  have h := (travelers_default_and_echo 0 reqRome (_generate_mock_plan 0 reqRome) "Rome").1 rfl
  rw [h]
  rfl

/-- C10: a destination consisting of a single space passes the emptiness
check, and the generated plan embeds the whitespace destination verbatim
in titles, locations and links. -/
theorem whitespace_destination_accepted :
    plan_trip 0 reqSpace = Except.ok (_generate_mock_plan 0 reqSpace) ∧
    (_generate_mock_plan 0 reqSpace).destination = " " ∧
    (_generate_mock_plan 0 reqSpace).items.length = 10 ∧
    (_generate_mock_plan 0 reqSpace).items.head? = some
      { day := 1
        type := .hotel
        title := "  Boutique Hotel 1"
        description := some "Centrally located stay for 4 nights."
        location := some " "
        price := some 145
        currency := some "USD"
        link := some "https://www.booking.com/search?q=++Boutique+Hotel+1"
        available := true
        vendor := some "Booking.com" } := by
  refine ⟨rfl, rfl, rfl, ?_⟩
  have h0 : (_generate_mock_plan 0 reqSpace).items.head? =
      some (hotelItem reqSpace (nightsOf 0 reqSpace) 0) := rfl
  rw [h0, hotelItem_zero]
  rfl
